import Mathlib

/-!
Verification of the RSS monitoring pipeline in `src/app.py` (GenNews-RSSv).

The Python program is shallowly embedded: each stateful method becomes a pure
Lean function that takes the relevant part of the monitor state together with
the outcome of its external calls (HTTP fetch, feed parse, spreadsheet fetch,
classifier response, per-destination delivery) as explicit parameters, and
returns the updated state plus the emitted effects.  Wall-clock times are
modelled as `Nat`.
-/

namespace GenNews

/-- The fixed category vocabulary, `CATEGORIES` in `app.py`. -/
def CATEGORIES : List String :=
  ["License", "Sanction", "AML/CFT", "Regulatory",
   "Benchmark Exchange License Update", "Legal structure"]

/-- `self.max_batch_size = 5` in `RSSMonitor.__init__`. -/
def max_batch_size : Nat := 5

/-- `self.batch_timeout = 60` in `RSSMonitor.__init__`. -/
def batch_timeout : Nat := 60

/-- `SHEET_REFRESH_INTERVAL = 600` in `app.py`. -/
def SHEET_REFRESH_INTERVAL : Nat := 600

/-- A parsed feed entry as `feedparser` hands it to `_check_rss`.
`id?` is `some i` when the key `id` is present (`'id' in latest_entry`);
`summary` and `description` model `.get('summary', '')` / `.get('description', '')`,
so an absent field is the empty string. -/
structure Entry where
  id? : Option String
  link : String
  title : String
  summary : String
  description : String
deriving DecidableEq

/-- One message block of a scraped Telegram channel page as
`_parse_telegram_channel` reads it with BeautifulSoup: `dateHref` is the
`href` of the `tgme_widget_message_date` anchor when `find` succeeds, and
`msgText` the text of the `tgme_widget_message_text` div when `find` succeeds. -/
structure TgMessage where
  dateHref : Option String
  msgText : Option String
deriving DecidableEq

/-- A pending entry, i.e. the dict appended to `self.pending_entries`. -/
structure CandidateEntry where
  title : String
  content : String
  link : String
  feed_url : String
  is_telegram : Bool
deriving DecidableEq

/-- The outcome of the fetch-and-parse prefix of `_check_rss` for one feed:
either `requests.get`/`raise_for_status` raised a `RequestException`, or the
content was obtained and `feedparser.parse` produced a `bozo` flag and an
entry list; `tgMessages` is the list of message blocks BeautifulSoup would
extract from the fetched HTML (consumed only on the Telegram fallback path). -/
inductive CheckInput where
  | fetchError : CheckInput
  | parsed (bozo : Bool) (entries : List Entry) (tgMessages : List TgMessage) : CheckInput

/-- The mutable state touched by `_check_rss`: `self.last_entries`
(an association list modelling the Python dict feed url to entry id)
and `self.pending_entries`. -/
structure CheckState where
  last_entries : List (String × String)
  pending_entries : List CandidateEntry
deriving DecidableEq

/-- Dict lookup: `self.last_entries[feed_url]` when present. -/
def lookupEntry : List (String × String) → String → Option String
  | [], _ => none
  | (k, v) :: rest, key => if k = key then some v else lookupEntry rest key

/-- Dict assignment: `self.last_entries[feed_url] = entry_id`. -/
def setEntry : List (String × String) → String → String → List (String × String)
  | [], key, val => [(key, val)]
  | (k, v) :: rest, key, val =>
      if k = key then (key, val) :: rest else (k, v) :: setEntry rest key val

/-- The guard `feed_url not in self.last_entries or self.last_entries[feed_url] != entry_id`. -/
def identityChanged (last_entries : List (String × String)) (feed_url entry_id : String) : Bool :=
  match lookupEntry last_entries feed_url with
  | none => true
  | some prev => prev != entry_id

/-- The shared update pattern of `_check_rss` and `_parse_telegram_channel`:
when the identity is absent or different, store it and append the candidate;
otherwise leave the state untouched. -/
def recordCandidate (feed_url entry_id : String) (c : CandidateEntry) (s : CheckState) :
    CheckState :=
  if identityChanged s.last_entries feed_url entry_id then
    { last_entries := setEntry s.last_entries feed_url entry_id,
      pending_entries := s.pending_entries ++ [c] }
  else s

/-- `latest_entry.id if 'id' in latest_entry else latest_entry.link`. -/
def entryIdentity (e : Entry) : String :=
  match e.id? with
  | some i => i
  | none => e.link

/-- `latest_entry.get('summary', '') or latest_entry.get('description', '')`:
Python `or` keeps the summary when it is truthy (non-empty). -/
def bestContent (e : Entry) : String :=
  if e.summary = "" then e.description else e.summary

/-- Lines 179-193 of `app.py`: take the first entry as latest (`entries[0]`
guarded by `if feed.entries`), compute its identity, and run the
compare-and-record step. -/
def processLatest (feed_url : String) (entries : List Entry) (s : CheckState) : CheckState :=
  match entries with
  | [] => s
  | latest :: _ =>
      recordCandidate feed_url (entryIdentity latest)
        { title := latest.title, content := bestContent latest, link := latest.link,
          feed_url := feed_url, is_telegram := false } s

/-- `'t.me/s/' in feed_url`, written via `splitOn`: the substring occurs
iff splitting on it yields more than one piece. -/
def isTelegramUrl (feed_url : String) : Bool :=
  (feed_url.splitOn "t.me/s/").length ≥ 2

/-- `_parse_telegram_channel`: take the first message block; when both the
permalink anchor and the text div are present, use the permalink as identity
and record a candidate whose title is the first 100 characters of the text;
otherwise (or when no blocks are found) change nothing. -/
def parse_telegram_channel (messages : List TgMessage) (feed_url : String) (s : CheckState) :
    CheckState :=
  match messages with
  | [] => s
  | latest :: _ =>
      match latest.dateHref, latest.msgText with
      | some entry_id, some content =>
          recordCandidate feed_url entry_id
            { title := content.take 100, content := content, link := entry_id,
              feed_url := feed_url, is_telegram := true } s
      | _, _ => s

/-- `_check_rss`: a fetch/HTTP error is caught and leaves the state unchanged;
on a bozo parse, a Telegram url is delegated to the fallback parser and a
non-Telegram feed with no recoverable entries returns; otherwise the normal
latest-entry logic runs. -/
def check_rss (feed_url : String) (input : CheckInput) (s : CheckState) : CheckState :=
  match input with
  | .fetchError => s
  | .parsed bozo entries tgMessages =>
      if bozo then
        if isTelegramUrl feed_url then parse_telegram_channel tgMessages feed_url s
        else if entries.isEmpty then s
        else processLatest feed_url entries s
      else processLatest feed_url entries s

/-- The `for feed_url in self.feeds` sweep of `_monitor_loop`, with each
feed's fetch-and-parse outcome given by `inputs`. -/
def pollFeeds (feeds : List String) (inputs : String → CheckInput) (s : CheckState) :
    CheckState :=
  match feeds with
  | [] => s
  | f :: rest => pollFeeds rest inputs (check_rss f (inputs f) s)

/-- Outcome of the bulk classification call in `_process_pending_entries`:
`failure` covers a raised request error and a `json.loads` parse error;
`success labels` is the decoded JSON array of label strings. -/
inductive ClassifyOutcome where
  | failure : ClassifyOutcome
  | success (labels : List String) : ClassifyOutcome

/-- The guard `if category and category != 'None'`: a label triggers a
notification when it is truthy (non-empty) and not the literal `None` token. -/
def shouldNotify (category : String) : Bool :=
  category != "" && category != "None"

/-- The notification loop `for entry, category in zip(self.pending_entries, categories)`:
`zip` silently truncates to the shorter list, and the guarded entries survive. -/
def notifiedEntries (entries : List CandidateEntry) (labels : List String) :
    List (CandidateEntry × String) :=
  (entries.zip labels).filter (fun p => shouldNotify p.2)

/-- The state touched by `_process_pending_entries`: `self.pending_entries`
and `self.last_batch_time`. -/
structure BatchState where
  pending_entries : List CandidateEntry
  last_batch_time : Nat
deriving DecidableEq

/-- `_process_pending_entries`: an empty batch returns immediately
(before the `try`, so the timestamp is untouched); otherwise, whatever the
classifier outcome, the `finally` block clears the batch and stamps `now`,
and on success the zipped, guarded entries are notified. -/
def process_pending_entries (s : BatchState) (outcome : ClassifyOutcome) (now : Nat) :
    BatchState × List (CandidateEntry × String) :=
  if s.pending_entries = [] then (s, [])
  else
    match outcome with
    | .failure => (⟨[], now⟩, [])
    | .success labels => (⟨[], now⟩, notifiedEntries s.pending_entries labels)

/-- Outcome of the single-entry classification request in
`categorize_with_chatgpt`: `failure` is any raised exception, `success c`
the stripped response text. -/
inductive SingleOutcome where
  | failure : SingleOutcome
  | success (category : String) : SingleOutcome

/-- `categorize_with_chatgpt`: returns `None` on any error, and normalizes a
response equal to `'None'` or outside `CATEGORIES` to `None`
(`return None if category == 'None' or category not in CATEGORIES else category`). -/
def categorize_with_chatgpt (o : SingleOutcome) : Option String :=
  match o with
  | .failure => none
  | .success category =>
      if category = "None" ∨ category ∉ CATEGORIES then none else some category

/-- `send_telegram_message`: iterate over every loaded chat id; each send is
wrapped in its own try/except, so a failure (`deliver cid = false`) is logged
and the loop continues.  The result records, in order, each attempted chat id
with its delivery outcome. -/
def send_telegram_message : List Int → (Int → Bool) → List (Int × Bool)
  | [], _ => []
  | chat_id :: rest, deliver =>
      (chat_id, deliver chat_id) :: send_telegram_message rest deliver

/-- Outcome of `GoogleSheetReader.get_rss_feeds`'s spreadsheet request:
`failure` is a raised exception, `success values` the fetched rows. -/
inductive SheetFetch where
  | failure : SheetFetch
  | success (values : List (List String)) : SheetFetch

/-- `'http' in row[0].lower()`, written via `splitOn`. -/
def containsHttp (cell : String) : Bool :=
  ((cell.toLower).splitOn "http").length ≥ 2

/-- `get_rss_feeds`: on success, keep the first cell of each non-empty row
whose lowercase text contains `http`; on any exception, log and return `[]`. -/
def get_rss_feeds (fetch : SheetFetch) : List String :=
  match fetch with
  | .failure => []
  | .success values =>
      values.filterMap (fun row =>
        match row with
        | [] => none
        | cell :: _ => if containsHttp cell then some cell else none)

/-- The flush guard of `_monitor_loop` (lines 129-131):
`len(self.pending_entries) >= self.max_batch_size or
(self.pending_entries and current_time - self.last_batch_time >= self.batch_timeout)`. -/
def dueForFlush (pending : List CandidateEntry) (maxBatchSize : Nat)
    (now lastBatchTime timeout : Nat) : Bool :=
  decide (pending.length ≥ maxBatchSize) ||
    (!pending.isEmpty && decide (now - lastBatchTime ≥ timeout))

/-- The flush condition as §4.4 of the spec words it: due iff the batch has
reached the size bound, or it is non-empty and the elapsed time since the
last flush has reached the timeout. -/
def dueForFlushSpec (pending : List CandidateEntry) (maxBatchSize : Nat)
    (now lastBatchTime timeout : Nat) : Prop :=
  pending.length ≥ maxBatchSize ∨ (pending ≠ [] ∧ now - lastBatchTime ≥ timeout)

/-- The state carried across iterations of `_monitor_loop`. -/
structure LoopState where
  feeds : List String
  last_sheet_check : Nat
  last_entries : List (String × String)
  pending_entries : List CandidateEntry
  last_batch_time : Nat
deriving DecidableEq

/-- Lines 120-123 of `_monitor_loop`: when the refresh interval has elapsed,
replace `self.feeds` with whatever `get_rss_feeds` returns and stamp the check
time; otherwise leave the registry state alone. -/
def refreshStep (s : LoopState) (now : Nat) (fetch : SheetFetch) : LoopState :=
  if now - s.last_sheet_check ≥ SHEET_REFRESH_INTERVAL then
    { s with feeds := get_rss_feeds fetch, last_sheet_check := now }
  else s

/-- The post-poll intermediate state of one loop iteration: what
`self.last_entries` and `self.pending_entries` hold right after the
`for feed_url in self.feeds` sweep, at the moment the flush guard on
line 129 is evaluated. -/
def postPollState (s : LoopState) (now : Nat) (fetch : SheetFetch)
    (inputs : String → CheckInput) : CheckState :=
  pollFeeds (refreshStep s now fetch).feeds inputs
    ⟨(refreshStep s now fetch).last_entries, (refreshStep s now fetch).pending_entries⟩

/-- The `_process_pending_entries` call made by the loop when the flush guard
fires, applied to the whole post-poll batch. -/
def flushResult (s : LoopState) (now : Nat) (fetch : SheetFetch)
    (inputs : String → CheckInput) (outcome : ClassifyOutcome) (flushTime : Nat) :
    BatchState × List (CandidateEntry × String) :=
  process_pending_entries
    ⟨(postPollState s now fetch inputs).pending_entries,
     (refreshStep s now fetch).last_batch_time⟩ outcome flushTime

/-- One iteration of `_monitor_loop`: conditionally refresh the feed list,
sweep every feed through `_check_rss`, and only then — once, with the
iteration-start time `now` — evaluate the flush guard and, when due, run
`_process_pending_entries` (whose own `time.time()` call is `flushTime`). -/
def monitor_iteration (s : LoopState) (now : Nat) (fetch : SheetFetch)
    (inputs : String → CheckInput) (outcome : ClassifyOutcome) (flushTime : Nat) :
    LoopState × List (CandidateEntry × String) :=
  if dueForFlush (postPollState s now fetch inputs).pending_entries max_batch_size now
      (refreshStep s now fetch).last_batch_time batch_timeout then
    ({ refreshStep s now fetch with
        last_entries := (postPollState s now fetch inputs).last_entries,
        pending_entries := (flushResult s now fetch inputs outcome flushTime).1.pending_entries,
        last_batch_time := (flushResult s now fetch inputs outcome flushTime).1.last_batch_time },
     (flushResult s now fetch inputs outcome flushTime).2)
  else
    ({ refreshStep s now fetch with
        last_entries := (postPollState s now fetch inputs).last_entries,
        pending_entries := (postPollState s now fetch inputs).pending_entries }, [])

/-! Concrete sample values used by witnesses and counterexamples. -/

/-- A sample pending entry. -/
def eA : CandidateEntry :=
  { title := "Title A", content := "content a", link := "http://a.example/1",
    feed_url := "http://a.example/rss", is_telegram := false }

/-- A second sample pending entry. -/
def eB : CandidateEntry :=
  { title := "Title B", content := "content b", link := "http://b.example/1",
    feed_url := "http://b.example/rss", is_telegram := false }

/-- An empty check state. -/
def s0 : CheckState := ⟨[], []⟩

/-- An input assignment where every fetch fails. -/
def inputsFail : String → CheckInput := fun _ => CheckInput.fetchError

/-! ### Theorems for the claims -/

/-- C4: on a successful fetch and parse with at least one entry, `_check_rss`
emits a candidate iff the latest entry's identity (native id if present, else
link) is absent from or different than the stored one, in which case the index
is updated to that identity; when identical the state is returned unchanged. -/
theorem check_rss_emits_iff_identity_changed (feed_url : String) (latest : Entry)
    (rest : List Entry) (tg : List TgMessage) (s : CheckState) :
    check_rss feed_url (.parsed false (latest :: rest) tg) s =
      if lookupEntry s.last_entries feed_url = some (entryIdentity latest) then s
      else { last_entries := setEntry s.last_entries feed_url (entryIdentity latest),
             pending_entries := s.pending_entries ++
               [{ title := latest.title, content := bestContent latest, link := latest.link,
                  feed_url := feed_url, is_telegram := false }] } := by
  show processLatest feed_url (latest :: rest) s = _
  rw [processLatest, recordCandidate, identityChanged]
  cases h : lookupEntry s.last_entries feed_url with
  | none => simp [h]
  | some prev =>
    by_cases hp : prev = entryIdentity latest
    · subst hp
      simp [h]
    · simp [h, hp]

/-- C5: the flush guard of the monitor loop holds iff the batch has reached
the size bound, or it is non-empty and the elapsed time since the last flush
has reached the timeout. -/
theorem dueForFlush_iff_spec (pending : List CandidateEntry) (maxBatchSize : Nat)
    (now lastBatchTime timeout : Nat) :
    dueForFlush pending maxBatchSize now lastBatchTime timeout = true ↔
      dueForFlushSpec pending maxBatchSize now lastBatchTime timeout := by
  cases pending with
  | nil => simp [dueForFlush, dueForFlushSpec]
  | cons a t => simp [dueForFlush, dueForFlushSpec]

/-- C7: a fetch/HTTP failure for a feed is caught inside `_check_rss`, so the
check leaves the last-seen index and the pending batch unchanged, and the
sweep continues with the remaining feeds exactly as if the failing feed had
been skipped. -/
theorem fetch_error_leaves_state_unchanged (feed_url : String) (rest : List String)
    (inputs : String → CheckInput) (s : CheckState)
    (h : inputs feed_url = .fetchError) :
    check_rss feed_url (inputs feed_url) s = s ∧
    pollFeeds (feed_url :: rest) inputs s = pollFeeds rest inputs s := by
  constructor
  · rw [h]
    rfl
  · rw [pollFeeds, h]
    rfl

/-- Witness for C7 at a concrete failing feed and a two-feed sweep. -/
theorem fetch_error_leaves_state_unchanged_witness :
    inputsFail "http://a.example/rss" = .fetchError ∧
    (check_rss "http://a.example/rss" (inputsFail "http://a.example/rss") s0 = s0 ∧
     pollFeeds ["http://a.example/rss", "http://b.example/rss"] inputsFail s0 =
       pollFeeds ["http://b.example/rss"] inputsFail s0) :=
  ⟨rfl, fetch_error_leaves_state_unchanged "http://a.example/rss"
    ["http://b.example/rss"] inputsFail s0 rfl⟩

/-- C10: a successful fetch whose parse is clean (`bozo` false) but yields an
empty entry list makes `_check_rss` return with no emission and no index
change — the `entries[0]` access is guarded by `if feed.entries`. -/
theorem empty_feed_leaves_state_unchanged (feed_url : String) (tg : List TgMessage)
    (s : CheckState) :
    check_rss feed_url (.parsed false [] tg) s = s := rfl

/-- C6: whenever the loop's flush guard fires, `_process_pending_entries`
leaves the pending batch empty and resets the last-flush timestamp to the
time of the flush, whatever the classification outcome (success or failure):
the cleanup sits in a `finally` block. -/
theorem flush_clears_batch_and_resets_timer (s : BatchState) (now flushTime : Nat)
    (outcome : ClassifyOutcome)
    (hdue : dueForFlush s.pending_entries max_batch_size now s.last_batch_time
      batch_timeout = true) :
    (process_pending_entries s outcome flushTime).1.pending_entries = [] ∧
    (process_pending_entries s outcome flushTime).1.last_batch_time = flushTime := by
  have hne : s.pending_entries ≠ [] := by
    intro he
    rw [he] at hdue
    simp [dueForFlush, max_batch_size] at hdue
  unfold process_pending_entries
  rw [if_neg hne]
  cases outcome <;> exact ⟨rfl, rfl⟩

/-- Witness for C6: a one-entry batch, due by timeout, flushed on a failing
classification. -/
theorem flush_clears_batch_and_resets_timer_witness :
    dueForFlush (BatchState.mk [eA] 0).pending_entries max_batch_size 100
      (BatchState.mk [eA] 0).last_batch_time batch_timeout = true ∧
    ((process_pending_entries ⟨[eA], 0⟩ .failure 100).1.pending_entries = [] ∧
     (process_pending_entries ⟨[eA], 0⟩ .failure 100).1.last_batch_time = 100) :=
  ⟨by decide, flush_clears_batch_and_resets_timer ⟨[eA], 0⟩ 100 100 .failure (by decide)⟩

/-- C1 counterexample: a batch of two entries for which the classifier returns
a single label — the label count differs from the batch size, yet one
notification is still produced, because the `zip` in
`_process_pending_entries` silently truncates instead of failing the batch. -/
theorem batch_length_mismatch_still_notifies :
    (["License"] : List String).length ≠ ([eA, eB] : List CandidateEntry).length ∧
    (process_pending_entries ⟨[eA, eB], 0⟩ (.success ["License"]) 10).2 =
      [(eA, "License")] := by
  constructor
  · decide
  · decide

/-- C1 as amended: a malformed/unparseable response or a failed request
yields zero notifications for the batch; a label-count mismatch is not
detected — labels are paired with entries positionally, truncating to the
shorter of the two lists. -/
theorem classifier_failure_yields_no_notifications (s : BatchState) (now : Nat) :
    (process_pending_entries s .failure now).2 = [] ∧
    ∀ labels, ((process_pending_entries s (.success labels) now).2).length ≤
      min s.pending_entries.length labels.length := by
  constructor
  · unfold process_pending_entries
    split
    · rfl
    · rfl
  · intro labels
    unfold process_pending_entries
    split
    · simp
    · calc (notifiedEntries s.pending_entries labels).length
          ≤ (s.pending_entries.zip labels).length := List.length_filter_le _ _
        _ = min s.pending_entries.length labels.length := List.length_zip _ _

/-- C2 counterexample: in the batch path a label outside the vocabulary is
not normalized — the guard is only `if category and category != 'None'` — so
the entry is notified with the foreign label. -/
theorem batch_out_of_vocab_label_notifies :
    ("Banana" ∉ CATEGORIES) ∧ ("Banana" ≠ "None") ∧
    (process_pending_entries ⟨[eA], 0⟩ (.success ["Banana"]) 10).2 =
      [(eA, "Banana")] := by
  refine ⟨by decide, by decide, by decide⟩

/-- C2 as amended: the single-entry path `categorize_with_chatgpt` normalizes
a label equal to `'None'` or outside the vocabulary to no-category; the batch
path performs no vocabulary check — an entry is notified iff its positionally
paired label is non-empty and different from `'None'`, so an
out-of-vocabulary label still produces a notification there. -/
theorem label_normalization_by_path :
    (∀ c, categorize_with_chatgpt (.success c) = none ↔ (c = "None" ∨ c ∉ CATEGORIES)) ∧
    (∀ entries labels e c, (e, c) ∈ notifiedEntries entries labels ↔
       ((e, c) ∈ entries.zip labels ∧ c ≠ "" ∧ c ≠ "None")) := by
  constructor
  · intro c
    show (if c = "None" ∨ c ∉ CATEGORIES then (none : Option String) else some c) = none ↔
      (c = "None" ∨ c ∉ CATEGORIES)
    by_cases h : c = "None" ∨ c ∉ CATEGORIES
    · rw [if_pos h]
      exact iff_of_true rfl h
    · rw [if_neg h]
      exact iff_of_false (by simp) h
  · intro entries labels e c
    simp [notifiedEntries, List.mem_filter, shouldNotify, and_assoc]

/-- C3 sample loop state: a previously cached one-feed list with a refresh due. -/
def sPrev : LoopState :=
  { feeds := ["http://prev.example/rss"], last_sheet_check := 0,
    last_entries := [], pending_entries := [], last_batch_time := 0 }

/-- C3 counterexample: with a cached non-empty feed list and a due refresh
whose fetch fails, the poller's feed list is replaced (by the empty list that
`get_rss_feeds` returns from its `except` branch), not kept. -/
theorem refresh_failure_replaces_cached_list :
    (refreshStep sPrev 600 .failure).feeds ≠ sPrev.feeds := by
  decide

/-- C3 as amended: when the refresh fetch fails, `get_rss_feeds` logs and
returns the empty list, and the poller assigns it — the feed list becomes
empty rather than staying the previously cached list; the failure is caught
and never raises out of the reader. -/
theorem refresh_failure_yields_empty_list (s : LoopState) (now : Nat)
    (hdue : now - s.last_sheet_check ≥ SHEET_REFRESH_INTERVAL) :
    (refreshStep s now .failure).feeds = [] := by
  unfold refreshStep
  rw [if_pos hdue]
  rfl

/-- Witness for the amended C3 at the concrete cached state. -/
theorem refresh_failure_yields_empty_list_witness :
    (600 - sPrev.last_sheet_check ≥ SHEET_REFRESH_INTERVAL) ∧
    (refreshStep sPrev 600 .failure).feeds = [] :=
  ⟨by decide, refresh_failure_yields_empty_list sPrev 600 (by decide)⟩

/-- C8: for a label in the spec's `CategoryLabel` domain (the fixed
vocabulary plus the `'None'` sentinel), notification is skipped iff the label
is the sentinel; and `send_telegram_message` attempts delivery to every
loaded chat id in order — each id's recorded outcome is its own delivery
result, so one destination's failure neither prevents the attempts on the
others nor disturbs deliveries already made. -/
theorem notifier_skips_sentinel_and_attempts_all (category : String)
    (hdom : category ∈ CATEGORIES ∨ category = "None")
    (chat_ids : List Int) (deliver : Int → Bool) :
    (shouldNotify category = true ↔ category ≠ "None") ∧
    (send_telegram_message chat_ids deliver).map Prod.fst = chat_ids ∧
    (∀ cid ∈ chat_ids, (cid, deliver cid) ∈ send_telegram_message chat_ids deliver) := by
  refine ⟨?_, ?_, ?_⟩
  · rcases hdom with h | h
    · simp only [CATEGORIES, List.mem_cons, List.not_mem_nil, or_false] at h
      rcases h with rfl | rfl | rfl | rfl | rfl | rfl <;> decide
    · subst h
      decide
  · induction chat_ids with
    | nil => rfl
    | cons a t ih => simp [send_telegram_message, ih]
  · intro cid hcid
    induction chat_ids with
    | nil => cases hcid
    | cons a t ih =>
      rcases List.mem_cons.mp hcid with rfl | hmem
      · exact List.mem_cons_self _ _
      · exact List.mem_cons_of_mem _ (ih hmem)

/-- A concrete delivery outcome: positive chat ids succeed, others fail. -/
def deliverSample : Int → Bool := fun cid => decide (0 < cid)

/-- Witness for C8: the `License` label with one succeeding and one failing
destination. -/
theorem notifier_skips_sentinel_and_attempts_all_witness :
    ("License" ∈ CATEGORIES ∨ "License" = "None") ∧
    ((shouldNotify "License" = true ↔ "License" ≠ "None") ∧
     (send_telegram_message ([5, -7] : List Int) deliverSample).map Prod.fst =
       ([5, -7] : List Int) ∧
     (∀ cid ∈ ([5, -7] : List Int),
        (cid, deliverSample cid) ∈ send_telegram_message ([5, -7] : List Int) deliverSample)) :=
  ⟨Or.inl (by decide),
   notifier_skips_sentinel_and_attempts_all "License" (Or.inl (by decide))
     ([5, -7] : List Int) deliverSample⟩

/-- C9: the flush guard is evaluated once per loop iteration, after the whole
feed sweep; when the post-poll batch has grown beyond `max_batch_size`, the
subsequent flush hands the entire oversized batch to the single bulk
classification call (the notifications are computed from the whole batch, not
a `max_batch_size` cap) and drains it completely. -/
theorem oversized_batch_flushed_in_single_call (s : LoopState) (now : Nat)
    (fetch : SheetFetch) (inputs : String → CheckInput) (labels : List String)
    (flushTime : Nat)
    (hbig : max_batch_size < (postPollState s now fetch inputs).pending_entries.length) :
    (monitor_iteration s now fetch inputs (.success labels) flushTime).2 =
      notifiedEntries (postPollState s now fetch inputs).pending_entries labels ∧
    (monitor_iteration s now fetch inputs (.success labels) flushTime).1.pending_entries
      = [] := by
  have hne : (postPollState s now fetch inputs).pending_entries ≠ [] := by
    intro he
    rw [he] at hbig
    exact absurd hbig (by decide)
  have hdue : dueForFlush (postPollState s now fetch inputs).pending_entries
      max_batch_size now (refreshStep s now fetch).last_batch_time batch_timeout = true := by
    unfold dueForFlush
    rw [Bool.or_eq_true]
    exact Or.inl (decide_eq_true (le_of_lt hbig))
  have hflush : flushResult s now fetch inputs (.success labels) flushTime =
      (⟨[], flushTime⟩,
       notifiedEntries (postPollState s now fetch inputs).pending_entries labels) := by
    unfold flushResult process_pending_entries
    rw [if_neg hne]
  unfold monitor_iteration
  rw [if_pos hdue, hflush]
  exact ⟨rfl, rfl⟩

/-- Six feed urls for the oversized-batch witness. -/
def feeds6 : List String :=
  ["http://f1.example/rss", "http://f2.example/rss", "http://f3.example/rss",
   "http://f4.example/rss", "http://f5.example/rss", "http://f6.example/rss"]

/-- Every feed parses cleanly and serves one fresh entry identified by the
feed url itself. -/
def inputs6 : String → CheckInput :=
  fun u => CheckInput.parsed false [⟨none, u, "T", "S", ""⟩] []

/-- A loop state holding the six feeds, with the sheet refresh not yet due. -/
def sLoop6 : LoopState :=
  { feeds := feeds6, last_sheet_check := 0, last_entries := [],
    pending_entries := [], last_batch_time := 0 }

/-- Witness for C9: six feeds all yield new entries in one sweep, the batch
reaches length six before the single flush check, and the whole batch is
classified and drained at once. -/
theorem oversized_batch_flushed_in_single_call_witness :
    max_batch_size < (postPollState sLoop6 0 .failure inputs6).pending_entries.length ∧
    ((monitor_iteration sLoop6 0 .failure inputs6 (.success ["License"]) 0).2 =
       notifiedEntries (postPollState sLoop6 0 .failure inputs6).pending_entries
         ["License"] ∧
     (monitor_iteration sLoop6 0 .failure inputs6
        (.success ["License"]) 0).1.pending_entries = []) :=
  ⟨by decide,
   oversized_batch_flushed_in_single_call sLoop6 0 .failure inputs6 ["License"] 0
     (by decide)⟩

end GenNews
